import Mathlib

/-
Verification development for the NIoLS operational-closure core.

This file is a shallow embedding, in Lean 4, of the core Python modules
of the repository:

  software/core/context.py     (FSMState, Budget, SessionContext)
  software/core/predicates.py  (PredicateEvaluator)
  software/core/fsm.py         (FSM transition table and transition logic)
  software/core/trace.py       (TraceWriter: hash-chained append-only log)
  software/core/contracts.py   (EmitEnvelope and friends)
  software/api_server.py       (the emit_pattern endpoint tail)

Python floats are embedded as rationals.  Wall-clock and monotonic time
appear as explicit parameters wherever the Python code calls time.time()
or time.monotonic().  Hardware ports (laser controller, health monitor)
are embedded as data recording the reply of the single call the core
makes on them; an exception raised by the port call is a distinct
constructor.  The SHA-256 primitive (hashlib.sha256(...).hexdigest())
is kept abstract as a function parameter from strings to strings, so
theorems about the trace hold for every hash primitive and in
particular for SHA-256.
-/

/-- FSM state enumeration (context.py, class FSMState). -/
inductive FSMState where
  | SAFE
  | INITIALIZED
  | ARMED
  | EMIT_READY
  | EMITTING
  | FAULT
deriving DecidableEq

/-- The .value string of an FSM state. -/
def FSMState.value : FSMState → String
  | .SAFE => "SAFE"
  | .INITIALIZED => "INITIALIZED"
  | .ARMED => "ARMED"
  | .EMIT_READY => "EMIT_READY"
  | .EMITTING => "EMITTING"
  | .FAULT => "FAULT"

/-- FSM event enumeration (fsm.py, class FSMEvent). -/
inductive FSMEvent where
  | INITIALIZE
  | ARM
  | ARM_CONFIRM
  | EMIT_REQUEST
  | EMIT_COMPLETE
  | STOP
  | RESET
  | FAULT
deriving DecidableEq

/-- The .value string of an FSM event. -/
def FSMEvent.value : FSMEvent → String
  | .INITIALIZE => "INITIALIZE"
  | .ARM => "ARM"
  | .ARM_CONFIRM => "ARM_CONFIRM"
  | .EMIT_REQUEST => "EMIT_REQUEST"
  | .EMIT_COMPLETE => "EMIT_COMPLETE"
  | .STOP => "STOP"
  | .RESET => "RESET"
  | .FAULT => "FAULT"

/-- Laser emission budget tracking (context.py, dataclass Budget). -/
structure Budget where
  remaining_emit_ms : ℚ
  remaining_duty_percent : ℚ
  cooldown_remaining_ms : ℚ
  last_emit_end_time : Option ℚ := none
deriving DecidableEq

/-- Budget.update_cooldown: recompute cooldown remaining from the current
monotonic time and the configured cooldown duration. -/
def Budget.update_cooldown (b : Budget) (current_time cooldown_time_ms : ℚ) : Budget :=
  match b.last_emit_end_time with
  | none => { b with cooldown_remaining_ms := 0 }
  | some t =>
      let elapsed_ms := (current_time - t) * 1000
      { b with cooldown_remaining_ms := max 0 (cooldown_time_ms - elapsed_ms) }

/-- Budget.consume_emit_time: consume emission time, clamped at zero. -/
def Budget.consume_emit_time (b : Budget) (duration_ms : ℚ) : Budget :=
  { b with remaining_emit_ms := max 0 (b.remaining_emit_ms - duration_ms) }

/-- Budget.consume_duty_cycle: consume duty-cycle budget, clamped at zero. -/
def Budget.consume_duty_cycle (b : Budget) (duty_percent : ℚ) : Budget :=
  { b with remaining_duty_percent := max 0 (b.remaining_duty_percent - duty_percent) }

/-- Budget.record_emit_end: stamp the end of an emission. -/
def Budget.record_emit_end (b : Budget) (current_time : ℚ) : Budget :=
  { b with last_emit_end_time := some current_time }

/-- The safety section of the configuration document.  Each recognized key
is optional, mirroring dict.get with a default in the Python code. -/
structure SafetyConfig where
  max_continuous_time : Option ℚ := none
  cooldown_time : Option ℚ := none
deriving DecidableEq

/-- The configuration document, restricted to what the core reads:
presence of the hardware section, and the safety section (none when the
safety key is absent). -/
structure Config where
  hardware_present : Bool := true
  safety : Option SafetyConfig := none
deriving DecidableEq

/-- The calibration document, restricted to what the core reads: the
points list (none when the points key is absent). -/
structure Calibration where
  points : Option (List (ℚ × ℚ)) := none
deriving DecidableEq

/-- The reply the core observes from a single port call: either the
returned value or the message of a raised exception. -/
inductive PortReply (α : Type) where
  | ok (v : α)
  | exn (msg : String)
deriving DecidableEq

/-- A laser-controller port, as far as the guard predicates consult it:
the reply of is_interlock_safe(). -/
structure LaserPort where
  interlock_reply : PortReply Bool
deriving DecidableEq

/-- One entry of a health-check report (name, status.value, message). -/
structure HealthCheckItem where
  name : String
  status : String
  message : String
deriving DecidableEq

/-- The reply of health_monitor.check_dependencies(). -/
structure DependencyCheck where
  status : String
  message : String
  details : List (String × String) := []
deriving DecidableEq

/-- A health-monitor port, as far as the guard predicates consult it. -/
structure HealthPort where
  dependencies_reply : PortReply DependencyCheck
  run_all_checks_reply : PortReply (List HealthCheckItem)
deriving DecidableEq

/-- Session context (context.py, dataclass SessionContext).  The
photodiode_reader and signal_processor references are omitted: the
embedded core paths never read them (they are only handed to the health
port opaquely). -/
structure SessionContext where
  session_id : String := ""
  state : FSMState := .SAFE
  config_hash : Option String := none
  cal_hash : Option String := none
  config : Option Config := none
  calibration : Option Calibration := none
  budget : Option Budget := none
  arming_window_start : Option ℚ := none
  arming_window_duration_ms : ℚ := 5000
  simulation_mode : Bool := false
  fault_reason : Option String := none
  laser_controller : Option LaserPort := none
  health_monitor : Option HealthPort := none
deriving DecidableEq

/-- SessionContext.initialize_budget: build the budget from the
configuration, with the defaults of context.py (3600 s of continuous
time when the key is absent, full duty budget, no cooldown). -/
def SessionContext.initialize_budget (ctx : SessionContext) (config : Config) :
    SessionContext :=
  let safety := config.safety.getD {}
  let max_continuous_time_s := safety.max_continuous_time.getD 3600
  { ctx with
    budget := some
      { remaining_emit_ms := max_continuous_time_s * 1000
        remaining_duty_percent := 100
        cooldown_remaining_ms := 0 } }

/-- SessionContext.is_arming_window_valid at an explicit current time. -/
def SessionContext.is_arming_window_valid (ctx : SessionContext) (current_time : ℚ) :
    Bool :=
  match ctx.arming_window_start with
  | none => false
  | some t0 => decide ((current_time - t0) * 1000 < ctx.arming_window_duration_ms)

/-- SessionContext.start_arming_window at an explicit current time. -/
def SessionContext.start_arming_window (ctx : SessionContext) (now : ℚ) :
    SessionContext :=
  { ctx with arming_window_start := some now }

/-- SessionContext.clear_arming_window. -/
def SessionContext.clear_arming_window (ctx : SessionContext) : SessionContext :=
  { ctx with arming_window_start := none }

/-- One budget operation, tagging the four mutating methods of Budget. -/
inductive BudgetOp where
  | consume_emit (duration_ms : ℚ)
  | consume_duty (duty_percent : ℚ)
  | cooldown (current_time cooldown_time_ms : ℚ)
  | emit_end (current_time : ℚ)
deriving DecidableEq

/-- Apply one budget operation. -/
def Budget.applyOp (b : Budget) : BudgetOp → Budget
  | .consume_emit d => b.consume_emit_time d
  | .consume_duty d => b.consume_duty_cycle d
  | .cooldown now ct => b.update_cooldown now ct
  | .emit_end t => b.record_emit_end t

/-- Apply a sequence of budget operations in order. -/
def Budget.applyOps (b : Budget) : List BudgetOp → Budget
  | [] => b
  | op :: rest => (b.applyOp op).applyOps rest

/-- The consume operations take a nonnegative amount; the other two
operations are unconstrained. -/
def BudgetOp.argNonneg : BudgetOp → Prop
  | .consume_emit d => 0 ≤ d
  | .consume_duty d => 0 ≤ d
  | .cooldown _ _ => True
  | .emit_end _ => True

/-- The budget invariants of the specification. -/
def budgetInv (b : Budget) : Prop :=
  0 ≤ b.remaining_emit_ms ∧
  0 ≤ b.remaining_duty_percent ∧
  b.remaining_duty_percent ≤ 100 ∧
  0 ≤ b.cooldown_remaining_ms

/-- A diagnostic value appearing in a predicate bounds dict. -/
inductive DVal where
  | s (v : String)
  | q (v : ℚ)
  | b (v : Bool)
  | n (v : Nat)
  | m (v : List (String × String))
  | items (v : List HealthCheckItem)
deriving DecidableEq

/-- A predicate diagnostic map (bounds dict), in insertion order. -/
abbrev Diag := List (String × DVal)

/-- PredicateEvaluator.check_config_valid. -/
def PredicateEvaluator.check_config_valid (ctx : SessionContext) : Bool × Diag :=
  match ctx.config with
  | none => (false, [("error", .s "config_not_loaded")])
  | some config =>
    match ctx.config_hash with
    | none => (false, [("error", .s "config_hash_not_computed")])
    | some h =>
      if ¬config.hardware_present then
        (false, [("error", .s "missing_section_hardware")])
      else if config.safety.isNone then
        (false, [("error", .s "missing_section_safety")])
      else
        (true, [("config_hash", .s h)])

/-- PredicateEvaluator.check_calibration_valid. -/
def PredicateEvaluator.check_calibration_valid (ctx : SessionContext) : Bool × Diag :=
  match ctx.calibration with
  | none => (false, [("error", .s "calibration_not_loaded")])
  | some cal =>
    match ctx.cal_hash with
    | none => (false, [("error", .s "cal_hash_not_computed")])
    | some h =>
      let points := cal.points.getD []
      if points.length < 2 then
        (false, [("error", .s "insufficient_calibration_points"),
                 ("points", .n points.length)])
      else
        (true, [("cal_hash", .s h), ("points", .n points.length)])

/-- PredicateEvaluator.check_dependencies_ok. -/
def PredicateEvaluator.check_dependencies_ok (ctx : SessionContext) : Bool × Diag :=
  match ctx.health_monitor with
  | none => (false, [("error", .s "health_monitor_not_available")])
  | some hm =>
    match hm.dependencies_reply with
    | .exn msg => (false, [("error", .s msg)])
    | .ok check =>
      let is_ok := check.status = "healthy"
      (is_ok, [("status", .s check.status),
               ("message", .s check.message),
               ("details", .m check.details)])

/-- PredicateEvaluator.check_interlock_safe. -/
def PredicateEvaluator.check_interlock_safe (ctx : SessionContext) : Bool × Diag :=
  match ctx.laser_controller with
  | none =>
    if ctx.simulation_mode then
      (true, [("simulation", .b true), ("interlock_safe", .b true)])
    else
      (false, [("error", .s "laser_controller_not_available")])
  | some port =>
    match port.interlock_reply with
    | .exn msg => (false, [("error", .s msg)])
    | .ok is_safe => (is_safe, [("interlock_safe", .b is_safe)])

/-- PredicateEvaluator.check_no_outstanding_faults. -/
def PredicateEvaluator.check_no_outstanding_faults (ctx : SessionContext) : Bool × Diag :=
  if ctx.state = .FAULT then
    (false, [("fault_state", .b true),
             ("fault_reason", .s (ctx.fault_reason.getD "unknown"))])
  else
    (true, [("faults", .n 0)])

/-- PredicateEvaluator.check_cooldown_satisfied at an explicit monotonic
time.  This predicate mutates the budget (update_cooldown), so the
updated context is returned alongside the result. -/
def PredicateEvaluator.check_cooldown_satisfied (ctx : SessionContext) (now : ℚ) :
    (Bool × Diag) × SessionContext :=
  match ctx.budget with
  | none => ((false, [("error", .s "budget_not_initialized")]), ctx)
  | some b =>
    let config := ctx.config.getD {}
    let safety := config.safety.getD {}
    let cooldown_time_ms := safety.cooldown_time.getD 60 * 1000
    let b2 := b.update_cooldown now cooldown_time_ms
    let is_satisfied := decide (b2.cooldown_remaining_ms ≤ 0)
    ((is_satisfied,
      [("cooldown_satisfied", .b is_satisfied),
       ("cooldown_remaining_ms", .q b2.cooldown_remaining_ms),
       ("cooldown_required_ms", .q cooldown_time_ms)]),
     { ctx with budget := some b2 })

/-- PredicateEvaluator.check_arm_confirmation_within_window at an
explicit monotonic time. -/
def PredicateEvaluator.check_arm_confirmation_within_window
    (ctx : SessionContext) (now : ℚ) : Bool × Diag :=
  let is_valid := ctx.is_arming_window_valid now
  match ctx.arming_window_start with
  | none => (false, [("error", .s "arming_window_not_started")])
  | some t0 =>
    let elapsed_ms := (now - t0) * 1000
    let remaining_ms := max 0 (ctx.arming_window_duration_ms - elapsed_ms)
    (is_valid,
     [("within_window", .b is_valid),
      ("elapsed_ms", .q elapsed_ms),
      ("remaining_ms", .q remaining_ms),
      ("window_duration_ms", .q ctx.arming_window_duration_ms)])

/-- PredicateEvaluator.check_budget_available. -/
def PredicateEvaluator.check_budget_available (ctx : SessionContext)
    (required_emit_ms required_duty_percent : ℚ) : Bool × Diag :=
  match ctx.budget with
  | none => (false, [("error", .s "budget_not_initialized")])
  | some b =>
    let has_emit_time := decide (b.remaining_emit_ms ≥ required_emit_ms)
    let has_duty_cycle := decide (b.remaining_duty_percent ≥ required_duty_percent)
    let budget_available := has_emit_time && has_duty_cycle
    (budget_available,
     [("budget_available", .b budget_available),
      ("remaining_emit_ms", .q b.remaining_emit_ms),
      ("required_emit_ms", .q required_emit_ms),
      ("remaining_duty_percent", .q b.remaining_duty_percent),
      ("required_duty_percent", .q required_duty_percent),
      ("has_emit_time", .b has_emit_time),
      ("has_duty_cycle", .b has_duty_cycle)])

/-- PredicateEvaluator.check_hardware_health. -/
def PredicateEvaluator.check_hardware_health (ctx : SessionContext) : Bool × Diag :=
  match ctx.health_monitor with
  | none =>
    if ctx.simulation_mode then
      (true, [("simulation", .b true), ("hardware_health", .s "simulated")])
    else
      (false, [("error", .s "health_monitor_not_available")])
  | some hm =>
    match hm.run_all_checks_reply with
    | .exn msg => (false, [("error", .s msg)])
    | .ok checks =>
      let has_critical := checks.any fun c => c.status = "critical"
      let has_error := checks.any fun c => c.status = "error"
      let is_healthy := ¬(has_critical || has_error)
      (is_healthy,
       [("hardware_healthy", .b is_healthy),
        ("has_critical", .b has_critical),
        ("has_error", .b has_error),
        ("checks", .items checks)])

/-- The optional entries of the event_data dict that fsm.py reads
(event_data.get with a 0.0 default); none models an absent key. -/
structure EventData where
  required_emit_ms : Option ℚ := none
  required_duty_percent : Option ℚ := none
  emit_duration_ms : Option ℚ := none
  duty_percent : Option ℚ := none
deriving DecidableEq

/-- The per-predicate entry recorded in predicate_results: either
bounds (normal return) or an error string (method not found; the
evaluation itself raising is absorbed inside the embedded predicates
as a bounds dict with an error key, as in predicates.py). -/
inductive PredInfo where
  | bounds (d : Diag)
  | err (msg : String)
deriving DecidableEq

/-- One predicate evaluation outcome as stored in predicate_results. -/
structure PredResult where
  passed : Bool
  info : PredInfo
deriving DecidableEq

/-- The transition table of fsm.py (FSM.TRANSITION_TABLE), in source
order, keyed on (from_state, event) with (to_state, required predicate
names). -/
def TRANSITION_TABLE :
    List ((FSMState × FSMEvent) × (FSMState × List String)) :=
  [((.SAFE, .INITIALIZE),
    (.INITIALIZED,
     ["check_config_valid", "check_calibration_valid",
      "check_dependencies_ok", "check_hardware_health"])),
   ((.INITIALIZED, .ARM),
    (.ARMED,
     ["check_interlock_safe", "check_no_outstanding_faults",
      "check_cooldown_satisfied"])),
   ((.ARMED, .ARM_CONFIRM),
    (.EMIT_READY, ["check_arm_confirmation_within_window"])),
   ((.EMIT_READY, .EMIT_REQUEST),
    (.EMITTING, ["check_budget_available", "check_interlock_safe"])),
   ((.EMITTING, .EMIT_COMPLETE), (.EMIT_READY, [])),
   ((.EMITTING, .STOP), (.EMIT_READY, [])),
   ((.EMIT_READY, .STOP), (.ARMED, [])),
   ((.ARMED, .STOP), (.INITIALIZED, [])),
   ((.INITIALIZED, .STOP), (.SAFE, [])),
   ((.FAULT, .RESET), (.SAFE, [])),
   ((.SAFE, .FAULT), (.FAULT, [])),
   ((.INITIALIZED, .FAULT), (.FAULT, [])),
   ((.ARMED, .FAULT), (.FAULT, [])),
   ((.EMIT_READY, .FAULT), (.FAULT, [])),
   ((.EMITTING, .FAULT), (.FAULT, []))]

/-- Dictionary lookup in the transition table. -/
def lookupTransition (key : FSMState × FSMEvent) :
    Option (FSMState × List String) :=
  TRANSITION_TABLE.lookup key

/-- Evaluate one required predicate by name, mirroring the dispatch in
FSM.transition: check_budget_available receives the two requirement
arguments from event_data with a 0.0 default; the two hash-match
predicates are skipped (treated as passed); an unknown name yields the
predicate_method_not_found error entry.  check_cooldown_satisfied
updates the budget, so the (possibly updated) context is returned. -/
def evalPredicate (ctx : SessionContext) (ed : EventData) (now : ℚ)
    (name : String) : PredResult × SessionContext :=
  if name = "check_budget_available" then
    let r := PredicateEvaluator.check_budget_available ctx
      (ed.required_emit_ms.getD 0) (ed.required_duty_percent.getD 0)
    ({ passed := r.1, info := .bounds r.2 }, ctx)
  else if name = "check_config_hash_match" ∨ name = "check_cal_hash_match" then
    ({ passed := true, info := .bounds [] }, ctx)
  else if name = "check_config_valid" then
    let r := PredicateEvaluator.check_config_valid ctx
    ({ passed := r.1, info := .bounds r.2 }, ctx)
  else if name = "check_calibration_valid" then
    let r := PredicateEvaluator.check_calibration_valid ctx
    ({ passed := r.1, info := .bounds r.2 }, ctx)
  else if name = "check_dependencies_ok" then
    let r := PredicateEvaluator.check_dependencies_ok ctx
    ({ passed := r.1, info := .bounds r.2 }, ctx)
  else if name = "check_interlock_safe" then
    let r := PredicateEvaluator.check_interlock_safe ctx
    ({ passed := r.1, info := .bounds r.2 }, ctx)
  else if name = "check_no_outstanding_faults" then
    let r := PredicateEvaluator.check_no_outstanding_faults ctx
    ({ passed := r.1, info := .bounds r.2 }, ctx)
  else if name = "check_cooldown_satisfied" then
    let r := PredicateEvaluator.check_cooldown_satisfied ctx now
    ({ passed := r.1.1, info := .bounds r.1.2 }, r.2)
  else if name = "check_arm_confirmation_within_window" then
    let r := PredicateEvaluator.check_arm_confirmation_within_window ctx now
    ({ passed := r.1, info := .bounds r.2 }, ctx)
  else if name = "check_hardware_health" then
    let r := PredicateEvaluator.check_hardware_health ctx
    ({ passed := r.1, info := .bounds r.2 }, ctx)
  else
    ({ passed := false, info := .err "predicate_method_not_found" }, ctx)

/-- Evaluate the required predicates in order, threading the context
(only check_cooldown_satisfied updates it), collecting the
predicate_results entries in evaluation order. -/
def evalPredicates (ed : EventData) (now : ℚ) :
    SessionContext → List String → List (String × PredResult) × SessionContext
  | ctx, [] => ([], ctx)
  | ctx, name :: rest =>
    let head := evalPredicate ctx ed now name
    let tail := evalPredicates ed now head.2 rest
    ((name, head.1) :: tail.1, tail.2)

/-- The names of the failing predicates, in evaluation order, as listed
inside the fault reason string. -/
def failingNames (results : List (String × PredResult)) : List String :=
  (results.filter fun p => ¬p.2.passed).map fun p => p.1

/-- The single-quote character, used by the Python repr of a list of
strings. -/
def pyQuote : String := String.singleton (Char.ofNat 39)

/-- The Python repr of a list of strings, as interpolated into the
fault reason f-string. -/
def pyStrListRepr (xs : List String) : String :=
  "[" ++ String.intercalate ", " (xs.map fun x => pyQuote ++ x ++ pyQuote) ++ "]"

/-- The fault reason built by FSM.transition on predicate failure. -/
def predicateFailureReason (results : List (String × PredResult)) : String :=
  "Predicate failures: " ++ pyStrListRepr (failingNames results)

/-- The FSMError raised on an illegal transition. -/
structure FSMError where
  msg : String
deriving DecidableEq

/-- The transition_info dict built by FSM._execute_transition and
FSM._transition_to_fault.  event_data is present on the normal path,
fault_reason on the fault path. -/
structure TransitionInfo where
  from_state : FSMState
  to_state : FSMState
  event : FSMEvent
  event_data : Option EventData := none
  fault_reason : Option String := none
  predicates : List (String × PredResult)
  timestamp : ℚ
  wall_clock : ℚ
deriving DecidableEq

/-- What FSM.transition hands back to its caller: either a raised
FSMError or the returned (success, message, transition_info) triple. -/
inductive TResult where
  | raised (e : FSMError)
  | returned (success : Bool) (message : String) (info : TransitionInfo)
deriving DecidableEq

/-- The full observable outcome of a call to FSM.transition: the raised
or returned value, the session context afterwards, and the list of
transition_info records successfully handed to the trace writer. -/
structure FSMOutcome where
  result : TResult
  ctx : SessionContext
  trace : List TransitionInfo
deriving DecidableEq

/-- FSM._execute_side_effects.  The registered side-effect hook list is
empty in the embedded configuration (no caller in the repository
registers hooks), so only the state-keyed effects appear. -/
def FSM.execute_side_effects (ctx : SessionContext) (_from_state to_state : FSMState)
    (event : FSMEvent) (ed : EventData) (now : ℚ) : SessionContext :=
  let ctx :=
    if to_state = .INITIALIZED then
      match ctx.config with
      | some c => ctx.initialize_budget c
      | none => ctx
    else ctx
  let ctx := if to_state = .ARMED then ctx.start_arming_window now else ctx
  let ctx := if to_state = .EMIT_READY then ctx.clear_arming_window else ctx
  let ctx :=
    if to_state = .EMITTING then
      match ctx.budget with
      | some b =>
        let emit_duration_ms := ed.emit_duration_ms.getD 0
        let duty_percent := ed.duty_percent.getD 0
        let b := if emit_duration_ms > 0 then b.consume_emit_time emit_duration_ms else b
        let b := if duty_percent > 0 then b.consume_duty_cycle duty_percent else b
        { ctx with budget := some b }
      | none => ctx
    else ctx
  let ctx :=
    if event = .EMIT_COMPLETE then
      match ctx.budget with
      | some b => { ctx with budget := some (b.record_emit_end now) }
      | none => ctx
    else ctx
  ctx

/-- FSM._execute_transition.  The trace writer callback is modelled by
the traceFails flag: when it raises, the exception is caught and
logged, so the record is not appended but the return value is the same. -/
def FSM.execute_transition (ctx : SessionContext) (trace : List TransitionInfo)
    (traceFails : Bool) (now wall : ℚ) (from_state to_state : FSMState)
    (event : FSMEvent) (ed : EventData)
    (predicate_results : List (String × PredResult)) : FSMOutcome :=
  let ctx1 := { ctx with state := to_state }
  let ctx2 := FSM.execute_side_effects ctx1 from_state to_state event ed now
  let info : TransitionInfo :=
    { from_state := from_state
      to_state := to_state
      event := event
      event_data := some ed
      predicates := predicate_results
      timestamp := now
      wall_clock := wall }
  { result := .returned true
      ("Transitioned " ++ from_state.value ++ " -> " ++ to_state.value) info
    ctx := ctx2
    trace := if traceFails then trace else trace ++ [info] }

/-- FSM._transition_to_fault. -/
def FSM.transition_to_fault (ctx : SessionContext) (trace : List TransitionInfo)
    (traceFails : Bool) (now wall : ℚ) (reason : String)
    (predicate_results : List (String × PredResult)) : FSMOutcome :=
  let from_state := ctx.state
  let ctx1 := { ctx with state := .FAULT, fault_reason := some reason }
  let info : TransitionInfo :=
    { from_state := from_state
      to_state := .FAULT
      event := .FAULT
      fault_reason := some reason
      predicates := predicate_results
      timestamp := now
      wall_clock := wall }
  { result := .returned true ("Fault: " ++ reason) info
    ctx := ctx1
    trace := if traceFails then trace else trace ++ [info] }

/-- FSM.transition: table lookup, predicate gate, fault diversion
(except when the target state is SAFE), then transition execution. -/
def FSM.transition (ctx : SessionContext) (trace : List TransitionInfo)
    (traceFails : Bool) (now wall : ℚ) (event : FSMEvent) (ed : EventData) :
    FSMOutcome :=
  let from_state := ctx.state
  match lookupTransition (from_state, event) with
  | none =>
    { result := .raised
        ⟨"Illegal transition: " ++ from_state.value ++ " --" ++ event.value ++ "--> ?"⟩
      ctx := ctx
      trace := trace }
  | some (to_state, required_predicates) =>
    let evaluated := evalPredicates ed now ctx required_predicates
    let predicate_results := evaluated.1
    let ctx1 := evaluated.2
    let all_predicates_pass := predicate_results.all fun p => p.2.passed
    if ¬all_predicates_pass ∧ to_state ≠ .SAFE then
      FSM.transition_to_fault ctx1 trace traceFails now wall
        (predicateFailureReason predicate_results) predicate_results
    else
      FSM.execute_transition ctx1 trace traceFails now wall from_state to_state
        event ed predicate_results

/-- Trace event type enumeration (trace.py, class EventType). -/
inductive EventType where
  | STATE_TRANSITION
  | FAULT
  | EMIT_REQUEST
  | EMIT_RESULT
  | MEASUREMENT_ENVELOPE_SNAPSHOT
  | CONFIG_DRIFT
deriving DecidableEq

/-- The .value string of a trace event type. -/
def EventType.value : EventType → String
  | .STATE_TRANSITION => "STATE_TRANSITION"
  | .FAULT => "FAULT"
  | .EMIT_REQUEST => "EMIT_REQUEST"
  | .EMIT_RESULT => "EMIT_RESULT"
  | .MEASUREMENT_ENVELOPE_SNAPSHOT => "MEASUREMENT_ENVELOPE_SNAPSHOT"
  | .CONFIG_DRIFT => "CONFIG_DRIFT"

/-- A JSON value.  Numbers carry their rendered textual form (the text
Python json.dumps emits for them), since no claim depends on numeric
rendering. -/
inductive Json where
  | jnull
  | jbool (b : Bool)
  | jnum (lit : String)
  | jstr (s : String)
  | jarr (items : List Json)
  | jobj (fields : List (String × Json))

/-- One hex digit, lowercase. -/
def hexDigit (n : Nat) : String :=
  String.singleton (if n < 10 then Char.ofNat (48 + n) else Char.ofNat (87 + n))

/-- Escape one character the way json.dumps (ensure_ascii=False) does. -/
def escapeJsonChar (c : Char) : String :=
  if c = Char.ofNat 34 then "\\\""
  else if c = Char.ofNat 92 then "\\\\"
  else if c = Char.ofNat 10 then "\\n"
  else if c = Char.ofNat 9 then "\\t"
  else if c = Char.ofNat 13 then "\\r"
  else if c = Char.ofNat 8 then "\\b"
  else if c = Char.ofNat 12 then "\\f"
  else if c.toNat < 32 then "\\u00" ++ hexDigit (c.toNat / 16) ++ hexDigit (c.toNat % 16)
  else String.singleton c

/-- Serialize a string as a JSON string literal. -/
def serializeJsonString (s : String) : String :=
  "\"" ++ String.join (s.data.map escapeJsonChar) ++ "\""

/-- Insert a rendered field into a key-sorted list (byte-sorted keys,
as json.dumps sort_keys=True produces). -/
def insertFieldSorted (p : String × String) :
    List (String × String) → List (String × String)
  | [] => [p]
  | q :: qs => if p.1 ≤ q.1 then p :: q :: qs else q :: insertFieldSorted p qs

/-- Sort rendered fields by key. -/
def sortFieldsByKey : List (String × String) → List (String × String)
  | [] => []
  | p :: ps => insertFieldSorted p (sortFieldsByKey ps)

mutual

/-- Canonical JSON serialization (TraceWriter._canonical_json):
json.dumps with sort_keys=True and separators (",", ":").  Object
fields are rendered first and then sorted by key; since rendering a
field does not depend on its position, this emits exactly the
serialization json.dumps produces after sorting the keys. -/
def serializeJson : Json → String
  | .jnull => "null"
  | .jbool true => "true"
  | .jbool false => "false"
  | .jnum lit => lit
  | .jstr s => serializeJsonString s
  | .jarr items => "[" ++ String.intercalate "," (serializeJsonItems items) ++ "]"
  | .jobj fields =>
    "\x7b" ++
      String.intercalate ","
        ((sortFieldsByKey (serializeJsonFields fields)).map
          fun p => serializeJsonString p.1 ++ ":" ++ p.2) ++
    "\x7d"

/-- Serialize the items of a JSON array in order. -/
def serializeJsonItems : List Json → List String
  | [] => []
  | x :: xs => serializeJson x :: serializeJsonItems xs

/-- Render each field of a JSON object, keeping source order. -/
def serializeJsonFields : List (String × Json) → List (String × String)
  | [] => []
  | f :: fs => (f.1, serializeJson f.2) :: serializeJsonFields fs

end

/-- 64 zero hex digits, the prev_hash of a chain's first record. -/
def zeros64 : String := String.mk (List.replicate 64 (Char.ofNat 48))

/-- The mutable state of a TraceWriter (trace.py): sequence counter and
the hash of the last written record.  A writer on a fresh trace file
starts at sequence 0 with no previous hash. -/
structure TraceWriter where
  session_id : String
  sequence : Nat := 0
  prev_hash : Option String := none
deriving DecidableEq

/-- The arguments of one TraceWriter.write_record call, together with
the rendered numeric literals of the two timestamps taken inside the
call.  The predicates and event_data dicts are arbitrary JSON
payloads. -/
structure WritePayload where
  ts_lit : String
  wall_lit : String
  event_type : EventType
  state_from : Option String := none
  state_to : Option String := none
  predicates_json : Option Json := none
  event_data_json : Option Json := none
  config_hash : Option String := none
  cal_hash : Option String := none

/-- An optional record field: absent keys contribute nothing. -/
def optField (key : String) : Option Json → List (String × Json)
  | none => []
  | some v => [(key, v)]

/-- A written trace record: the fields built before the hash was
computed, the sequence number, the prev_hash value used, and the hash
that was then added under the hash key. -/
structure TraceRecord where
  fields : List (String × Json)
  seq : Nat
  prev_hash : String
  hash : String

/-- The full field list of a written record, hash key included, as it
appears in the trace file line. -/
def TraceRecord.full (r : TraceRecord) : List (String × Json) :=
  r.fields ++ [("hash", .jstr r.hash)]

/-- A record with its hash field removed, as TraceReader.verify_chain
recomputes it. -/
def fieldsWithoutHash (fs : List (String × Json)) : List (String × Json) :=
  fs.filter fun f => f.1 ≠ "hash"

/-- TraceWriter.write_record, parameterized by the hash primitive
hashHex, which stands for hashlib.sha256(utf8 bytes).hexdigest(): build
the record fields (prev_hash defaulting to 64 zero digits), hash the
canonical serialization of the record without the hash field, add the
hash, and advance the writer state. -/
def TraceWriter.write_record (hashHex : String → String) (w : TraceWriter)
    (p : WritePayload) : TraceRecord × TraceWriter :=
  let seq := w.sequence + 1
  let prev := w.prev_hash.getD zeros64
  let fields : List (String × Json) :=
    [("ts", .jnum p.ts_lit),
     ("wall_clock", .jnum p.wall_lit),
     ("seq", .jnum (toString seq)),
     ("prev_hash", .jstr prev),
     ("event_type", .jstr p.event_type.value),
     ("session_id", .jstr w.session_id)]
    ++ optField "state_from" (p.state_from.map .jstr)
    ++ optField "state_to" (p.state_to.map .jstr)
    ++ optField "predicates" p.predicates_json
    ++ optField "event_data" p.event_data_json
    ++ optField "config_hash" (p.config_hash.map .jstr)
    ++ optField "cal_hash" (p.cal_hash.map .jstr)
  let canonical := serializeJson (.jobj fields)
  let record_hash := hashHex canonical
  ({ fields := fields, seq := seq, prev_hash := prev, hash := record_hash },
   { w with sequence := seq, prev_hash := some record_hash })

/-- The records produced by a sequence of write_record calls on one
writer, in order. -/
def TraceWriter.writeAll (hashHex : String → String) :
    TraceWriter → List WritePayload → List TraceRecord
  | _, [] => []
  | w, p :: ps =>
    let step := TraceWriter.write_record hashHex w p
    step.1 :: TraceWriter.writeAll hashHex step.2 ps

/-- The hash chain property: each record's prev_hash equals the given
seed for the first record and the previous record's hash afterwards. -/
def chainedFrom (prev : String) : List TraceRecord → Prop
  | [] => True
  | r :: rs => r.prev_hash = prev ∧ chainedFrom r.hash rs

/-- Pulse width constraints (contracts.py, dataclass PulseWidthBounds). -/
structure PulseWidthBounds where
  min_ms : ℚ
  max_ms : ℚ
deriving DecidableEq

/-- The __post_init__ validation of PulseWidthBounds. -/
def PulseWidthBounds.valid (p : PulseWidthBounds) : Prop :=
  0 ≤ p.min_ms ∧ p.min_ms ≤ p.max_ms

/-- Emission envelope (contracts.py, dataclass EmitEnvelope). -/
structure EmitEnvelope where
  power_mw_max : ℚ
  duty_cycle_max : ℚ
  t_start : ℚ
  t_end : ℚ
  pulse_width_bounds : Option PulseWidthBounds := none
deriving DecidableEq

/-- The __post_init__ validation of EmitEnvelope. -/
def EmitEnvelope.valid (e : EmitEnvelope) : Prop :=
  e.power_mw_max ≤ 1 ∧ 0 ≤ e.duty_cycle_max ∧ e.duty_cycle_max ≤ 100 ∧
  e.t_start < e.t_end

/-- EmitEnvelope.duration_ms. -/
def EmitEnvelope.duration_ms (e : EmitEnvelope) : ℚ :=
  (e.t_end - e.t_start) * 1000

/-- EmitEnvelope.validate_request: the semantic validation of a request
against the envelope.  The branch under the pulse_width_bounds presence
test is a pass statement in the source, so it contributes nothing. -/
def EmitEnvelope.validate_request (e : EmitEnvelope)
    (requested_power_mw requested_duty_percent requested_duration_ms : ℚ) :
    Bool × String :=
  if requested_power_mw > e.power_mw_max then
    (false, "Requested power exceeds max")
  else if requested_duty_percent > e.duty_cycle_max then
    (false, "Requested duty cycle exceeds max")
  else if requested_duration_ms > e.duration_ms then
    (false, "Requested duration exceeds max")
  else
    (true, "")

/-- Pattern parameters as emit_pattern in api_server.py computes them:
the total pattern duration in milliseconds, from the pulse and gap
counts and the per-pulse and per-gap durations in seconds. -/
def patternTotalDurationMs (total_pulses total_gaps : Nat)
    (pulse_dur gap_dur : ℚ) : ℚ :=
  ((total_pulses : ℚ) * pulse_dur + (total_gaps : ℚ) * gap_dur) * 1000

/-- The duty-cycle percentage emit_pattern computes (0 when the total
duration is not positive). -/
def patternDutyPercent (total_pulses total_gaps : Nat)
    (pulse_dur gap_dur : ℚ) : ℚ :=
  let total_duration := (total_pulses : ℚ) * pulse_dur + (total_gaps : ℚ) * gap_dur
  if total_duration > 0 then
    (total_pulses : ℚ) * pulse_dur / total_duration * 100
  else 0

/-- What the emit_pattern endpoint hands back to the HTTP client. -/
inductive ApiResult where
  | success
  | httpError (code : Nat) (detail : String)
deriving DecidableEq

/-- The tail of emit_pattern (api_server.py, after the EMIT_REQUEST
transition succeeded and send_pattern has returned pattern_success):
the EMIT_COMPLETE transition is issued unconditionally, and only then
is a failed send reported as an HTTP 500 error.  The EMIT_RESULT trace
record written on the success path goes through the TraceWriter, not
the FSM callback, and is outside this fragment. -/
def emitTail (ctx : SessionContext) (trace : List TransitionInfo)
    (traceFails : Bool) (now wall : ℚ)
    (total_duration_ms duty_cycle_percent : ℚ) (pattern_success : Bool) :
    ApiResult × SessionContext × List TransitionInfo :=
  let o := FSM.transition ctx trace traceFails now wall .EMIT_COMPLETE
    { emit_duration_ms := some total_duration_ms
      duty_percent := some duty_cycle_percent }
  if ¬pattern_success then
    (.httpError 500 "Pattern send failed", o.ctx, o.trace)
  else
    (.success, o.ctx, o.trace)

set_option maxHeartbeats 1000000 in
theorem evalPredicate_state (ctx : SessionContext) (ed : EventData) (now : ℚ)
    (name : String) : (evalPredicate ctx ed now name).2.state = ctx.state := by
  unfold evalPredicate
  split_ifs <;> try rfl
  unfold PredicateEvaluator.check_cooldown_satisfied
  cases ctx.budget <;> rfl

/-- Evaluating a list of predicates never changes the FSM state field. -/
theorem evalPredicates_state (ed : EventData) (now : ℚ) :
    ∀ (ctx : SessionContext) (names : List String),
      (evalPredicates ed now ctx names).2.state = ctx.state := by
  intro ctx names
  induction names generalizing ctx with
  | nil => rfl
  | cons name rest ih =>
    simp only [evalPredicates]
    rw [ih, evalPredicate_state]

/-- C3: a (state, event) pair absent from the transition table raises
FSMError, leaving the context and the trace untouched, and every pair
present in the table returns a (success, message, info) triple instead
of raising. -/
theorem illegal_transition_rejected (ctx : SessionContext)
    (trace : List TransitionInfo) (traceFails : Bool) (now wall : ℚ)
    (event : FSMEvent) (ed : EventData) :
    (lookupTransition (ctx.state, event) = none →
      FSM.transition ctx trace traceFails now wall event ed =
        { result := .raised
            ⟨"Illegal transition: " ++ ctx.state.value ++ " --" ++
              event.value ++ "--> ?"⟩
          ctx := ctx
          trace := trace }) ∧
    ((lookupTransition (ctx.state, event)).isSome = true →
      ∃ msg info,
        (FSM.transition ctx trace traceFails now wall event ed).result =
          .returned true msg info) := by
  constructor
  · intro h
    simp only [FSM.transition, h]
  · intro h
    obtain ⟨⟨to_state, preds⟩, hk⟩ := Option.isSome_iff_exists.mp h
    simp only [FSM.transition, hk]
    split
    · exact ⟨_, _, rfl⟩
    · exact ⟨_, _, rfl⟩

/-- Witness for C3: in SAFE, the ARM event is rejected with an
IllegalTransition error and no state change or trace record, while
(FAULT, RESET), a pair of the table, returns instead of raising. -/
theorem illegal_transition_rejected_witness :
    (FSM.transition { state := .SAFE } [] false 0 0 .ARM {} =
      { result := .raised ⟨"Illegal transition: SAFE --ARM--> ?"⟩
        ctx := { state := .SAFE }
        trace := [] }) ∧
    (∃ msg info,
      (FSM.transition { state := .FAULT } [] false 0 0 .RESET {}).result =
        .returned true msg info) :=
  ⟨(illegal_transition_rejected { state := .SAFE } [] false 0 0 .ARM {}).1 rfl,
   (illegal_transition_rejected { state := .FAULT } [] false 0 0 .RESET {}).2 rfl⟩

/-- C4: from FAULT the only key in the transition table is RESET, whose
target is SAFE: every other event is an illegal transition from FAULT,
raising FSMError and leaving the FAULT state in place. -/
theorem fault_latching (event : FSMEvent) (h : event ≠ .RESET) :
    lookupTransition (.FAULT, event) = none ∧
    lookupTransition (.FAULT, .RESET) = some (.SAFE, []) ∧
    ∀ (ctx : SessionContext) (trace : List TransitionInfo) (traceFails : Bool)
      (now wall : ℚ) (ed : EventData),
      ctx.state = .FAULT →
      FSM.transition ctx trace traceFails now wall event ed =
        { result := .raised
            ⟨"Illegal transition: FAULT --" ++ event.value ++ "--> ?"⟩
          ctx := ctx
          trace := trace } := by
  have hnone : lookupTransition (.FAULT, event) = none := by
    cases event <;> first | rfl | exact absurd rfl h
  refine ⟨hnone, rfl, ?_⟩
  intro ctx trace traceFails now wall ed hst
  simp only [FSM.transition, hst, hnone]
  rfl

/-- Witness for C4: the ARM event from FAULT is rejected and the state
stays FAULT. -/
theorem fault_latching_witness :
    lookupTransition (.FAULT, .ARM) = none ∧
    lookupTransition (.FAULT, .RESET) = some (.SAFE, []) ∧
    FSM.transition { state := .FAULT } [] false 0 0 .ARM {} =
      { result := .raised ⟨"Illegal transition: FAULT --ARM--> ?"⟩
        ctx := { state := .FAULT }
        trace := [] } := by
  obtain ⟨a, b, c⟩ := fault_latching .ARM (by decide)
  exact ⟨a, b, c { state := .FAULT } [] false 0 0 {} rfl⟩

/-- C9: the arm_confirmation_within_window guard passes exactly when
the arming window was started and the elapsed milliseconds since its
start are strictly below the window duration; at an elapsed time equal
to the duration the guard fails. -/
theorem arm_confirmation_window_guard :
    (∀ (ctx : SessionContext) (now : ℚ),
      (PredicateEvaluator.check_arm_confirmation_within_window ctx now).1 = true ↔
        ∃ t0, ctx.arming_window_start = some t0 ∧
          (now - t0) * 1000 < ctx.arming_window_duration_ms) ∧
    (∀ (ctx : SessionContext) (now t0 : ℚ),
      ctx.arming_window_start = some t0 →
      (now - t0) * 1000 = ctx.arming_window_duration_ms →
      (PredicateEvaluator.check_arm_confirmation_within_window ctx now).1 = false) := by
  constructor
  · intro ctx now
    unfold PredicateEvaluator.check_arm_confirmation_within_window
      SessionContext.is_arming_window_valid
    cases h : ctx.arming_window_start with
    | none => simp [h]
    | some t0 => simp [h]
  · intro ctx now t0 h heq
    unfold PredicateEvaluator.check_arm_confirmation_within_window
      SessionContext.is_arming_window_valid
    simp [h, heq]

/-- Witness for C9: with the window started at 0 and the default 5000 ms
duration, the guard passes at time 1 s and fails at exactly 5 s. -/
theorem arm_confirmation_window_guard_witness :
    (PredicateEvaluator.check_arm_confirmation_within_window
      { arming_window_start := some 0 } 1).1 = true ∧
    (PredicateEvaluator.check_arm_confirmation_within_window
      { arming_window_start := some 0 } 5).1 = false := by
  constructor
  · exact (arm_confirmation_window_guard.1 { arming_window_start := some 0 } 1).mpr
      ⟨0, rfl, by norm_num⟩
  · exact arm_confirmation_window_guard.2 { arming_window_start := some 0 } 5 0 rfl
      (by norm_num)

/-- Side-effect dispatch only touches budget and arming-window fields,
never the state field. -/
theorem execute_side_effects_state (ctx : SessionContext) (f t : FSMState)
    (e : FSMEvent) (ed : EventData) (now : ℚ) :
    (FSM.execute_side_effects ctx f t e ed now).state = ctx.state := by
  unfold FSM.execute_side_effects SessionContext.initialize_budget
    SessionContext.start_arming_window SessionContext.clear_arming_window
  dsimp only
  repeat' split
  all_goals rfl

/-- Side-effect dispatch never touches the fault_reason field. -/
theorem execute_side_effects_fault_reason (ctx : SessionContext) (f t : FSMState)
    (e : FSMEvent) (ed : EventData) (now : ℚ) :
    (FSM.execute_side_effects ctx f t e ed now).fault_reason = ctx.fault_reason := by
  unfold FSM.execute_side_effects SessionContext.initialize_budget
    SessionContext.start_arming_window SessionContext.clear_arming_window
  dsimp only
  repeat' split
  all_goals rfl

/-- C1: on a listed edge, when at least one required predicate fails to
pass (a false return or a caught exception both yield passed = false),
the transition with a working trace writer diverts to FAULT unless the
listed target is SAFE: the state becomes FAULT, fault_reason holds the
failing predicate names, and the fault record is appended to the trace;
when the listed target is SAFE the state advances to SAFE regardless. -/
theorem predicate_failure_diverts (ctx : SessionContext)
    (trace : List TransitionInfo) (now wall : ℚ) (event : FSMEvent)
    (ed : EventData) (to_state : FSMState) (preds : List String)
    (hlk : lookupTransition (ctx.state, event) = some (to_state, preds))
    (hfail : ((evalPredicates ed now ctx preds).1.all fun p => p.2.passed) = false) :
    (to_state ≠ .SAFE →
      (FSM.transition ctx trace false now wall event ed).ctx.state = .FAULT ∧
      (FSM.transition ctx trace false now wall event ed).ctx.fault_reason =
        some (predicateFailureReason (evalPredicates ed now ctx preds).1) ∧
      (FSM.transition ctx trace false now wall event ed).trace =
        trace ++
          [{ from_state := ctx.state
             to_state := .FAULT
             event := .FAULT
             fault_reason :=
               some (predicateFailureReason (evalPredicates ed now ctx preds).1)
             predicates := (evalPredicates ed now ctx preds).1
             timestamp := now
             wall_clock := wall }]) ∧
    (to_state = .SAFE →
      (FSM.transition ctx trace false now wall event ed).ctx.state = .SAFE) := by
  constructor
  · intro hne
    simp only [FSM.transition, hlk]
    split
    · refine ⟨rfl, rfl, ?_⟩
      simp [FSM.transition_to_fault, evalPredicates_state]
    · rename_i hcond
      exact absurd ⟨by simp [hfail], hne⟩ hcond
  · intro heq
    simp only [FSM.transition, hlk]
    split
    · rename_i hcond
      exact absurd heq hcond.2
    · simp only [FSM.execute_transition]
      rw [execute_side_effects_state]
      exact heq

/-- Witness for C1: in EMIT_READY with no budget object and no laser
controller, EMIT_REQUEST fails both of its guards, so the FSM lands in
FAULT with both failing predicate names recorded and a fault record
appended. -/
theorem predicate_failure_diverts_witness :
    (FSM.transition { state := .EMIT_READY } [] false 0 0 .EMIT_REQUEST {}).ctx.state =
      .FAULT ∧
    (FSM.transition { state := .EMIT_READY } [] false 0 0 .EMIT_REQUEST {}).ctx.fault_reason =
      some (predicateFailureReason
        (evalPredicates {} 0 { state := .EMIT_READY }
          ["check_budget_available", "check_interlock_safe"]).1) ∧
    (FSM.transition { state := .EMIT_READY } [] false 0 0 .EMIT_REQUEST {}).trace =
      [{ from_state := .EMIT_READY
         to_state := .FAULT
         event := .FAULT
         fault_reason :=
           some (predicateFailureReason
             (evalPredicates {} 0 { state := .EMIT_READY }
               ["check_budget_available", "check_interlock_safe"]).1)
         predicates :=
           (evalPredicates {} 0 { state := .EMIT_READY }
             ["check_budget_available", "check_interlock_safe"]).1
         timestamp := 0
         wall_clock := 0 }] :=
  (predicate_failure_diverts { state := .EMIT_READY } [] 0 0 .EMIT_REQUEST {}
    .EMITTING ["check_budget_available", "check_interlock_safe"] rfl rfl).1
    (by decide)

/-- C7 counterexample: with a trace writer that raises, the
EMIT_COMPLETE transition from EMITTING still completes to EMIT_READY,
no trace_unavailable fault is latched, nothing suggests a FAULT, and
the next transition (STOP) is accepted as usual rather than rejected
until RESET. -/
theorem trace_failure_not_latched :
    (FSM.transition { state := .EMITTING } [] true 0 0 .EMIT_COMPLETE {}).ctx.state =
      .EMIT_READY ∧
    (FSM.transition { state := .EMITTING } [] true 0 0 .EMIT_COMPLETE {}).ctx.fault_reason =
      none ∧
    (FSM.transition { state := .EMITTING } [] true 0 0 .EMIT_COMPLETE {}).result =
      .returned true "Transitioned EMITTING -> EMIT_READY"
        { from_state := .EMITTING
          to_state := .EMIT_READY
          event := .EMIT_COMPLETE
          event_data := some {}
          predicates := []
          timestamp := 0
          wall_clock := 0 } ∧
    (FSM.transition
      (FSM.transition { state := .EMITTING } [] true 0 0 .EMIT_COMPLETE {}).ctx
      [] true 0 0 .STOP {}).result =
      .returned true "Transitioned EMIT_READY -> ARMED"
        { from_state := .EMIT_READY
          to_state := .ARMED
          event := .STOP
          event_data := some {}
          predicates := []
          timestamp := 0
          wall_clock := 0 } := by
  refine ⟨rfl, rfl, rfl, rfl⟩

/-- C7 as amended: a trace writer failure during a transition is caught:
the raised-or-returned value and the resulting context are exactly those
of the same transition with a working writer, and the trace is simply
left unchanged; in particular no FAULT is latched with reason
trace_unavailable and subsequent transitions remain accepted. -/
theorem trace_failure_swallowed (ctx : SessionContext)
    (trace : List TransitionInfo) (now wall : ℚ) (event : FSMEvent)
    (ed : EventData) :
    (FSM.transition ctx trace true now wall event ed).result =
      (FSM.transition ctx trace false now wall event ed).result ∧
    (FSM.transition ctx trace true now wall event ed).ctx =
      (FSM.transition ctx trace false now wall event ed).ctx ∧
    (FSM.transition ctx trace true now wall event ed).trace = trace := by
  cases hk : lookupTransition (ctx.state, event) with
  | none =>
    simp [FSM.transition, hk]
  | some v =>
    obtain ⟨to_state, preds⟩ := v
    simp only [FSM.transition, hk]
    by_cases hc : ¬((evalPredicates ed now ctx preds).1.all fun p => p.2.passed) = true ∧
        to_state ≠ FSMState.SAFE
    · simp [if_pos hc, FSM.transition_to_fault]
    · simp [if_neg hc, FSM.execute_transition]

/-- C6 counterexample: with the FSM in EMITTING and send_pattern
reporting failure, the emit_pattern tail still issues EMIT_COMPLETE, so
the session lands in EMIT_READY (not FAULT), the fault reason stays
unset (in particular it is not port_failure:laser:interlock_opened),
the single record written is the EMIT_COMPLETE state transition rather
than a FAULT event, and the caller merely receives an HTTP 500 error. -/
theorem port_failure_not_faulted :
    (emitTail { state := .EMITTING } [] false 0 0 100 10 false).1 =
      .httpError 500 "Pattern send failed" ∧
    (emitTail { state := .EMITTING } [] false 0 0 100 10 false).2.1.state =
      .EMIT_READY ∧
    (emitTail { state := .EMITTING } [] false 0 0 100 10 false).2.1.fault_reason =
      none ∧
    (emitTail { state := .EMITTING } [] false 0 0 100 10 false).2.2 =
      [{ from_state := .EMITTING
         to_state := .EMIT_READY
         event := .EMIT_COMPLETE
         event_data := some { emit_duration_ms := some 100, duty_percent := some 10 }
         predicates := []
         timestamp := 0
         wall_clock := 0 }] :=
  ⟨rfl, rfl, rfl, rfl⟩

/-- C6 as amended: when send_pattern returns failure while the FSM is
in EMITTING, emit_pattern still issues the EMIT_COMPLETE transition
(EMITTING to EMIT_READY), leaves the fault reason untouched, appends
only that state-transition record to the trace, and reports the failure
to the HTTP caller as a 500 error; no FAULT transition is injected and
no port_failure reason is recorded. -/
theorem port_failure_reports_error (ctx : SessionContext)
    (trace : List TransitionInfo) (now wall dur duty : ℚ)
    (h : ctx.state = .EMITTING) :
    (emitTail ctx trace false now wall dur duty false).1 =
      .httpError 500 "Pattern send failed" ∧
    (emitTail ctx trace false now wall dur duty false).2.1.state = .EMIT_READY ∧
    (emitTail ctx trace false now wall dur duty false).2.1.fault_reason =
      ctx.fault_reason ∧
    (emitTail ctx trace false now wall dur duty false).2.2 =
      trace ++
        [{ from_state := .EMITTING
           to_state := .EMIT_READY
           event := .EMIT_COMPLETE
           event_data := some { emit_duration_ms := some dur, duty_percent := some duty }
           predicates := []
           timestamp := now
           wall_clock := wall }] := by
  have hk : lookupTransition (ctx.state, .EMIT_COMPLETE) =
      some (.EMIT_READY, []) := by rw [h]; rfl
  simp only [emitTail, FSM.transition, hk, evalPredicates]
  simp [FSM.execute_transition, execute_side_effects_state,
    execute_side_effects_fault_reason, h]

/-- Witness for the amended C6: a concrete EMITTING session whose
send_pattern fails ends in EMIT_READY with an HTTP 500 error. -/
theorem port_failure_reports_error_witness :
    (emitTail { state := .EMITTING } [] false 0 0 100 10 false).1 =
      .httpError 500 "Pattern send failed" ∧
    (emitTail { state := .EMITTING } [] false 0 0 100 10 false).2.1.state =
      .EMIT_READY ∧
    (emitTail { state := .EMITTING } [] false 0 0 100 10 false).2.1.fault_reason =
      (SessionContext.mk "" .EMITTING none none none none none none 5000 false
        none none none).fault_reason ∧
    (emitTail { state := .EMITTING } [] false 0 0 100 10 false).2.2 =
      [] ++
        [{ from_state := .EMITTING
           to_state := .EMIT_READY
           event := .EMIT_COMPLETE
           event_data := some { emit_duration_ms := some 100, duty_percent := some 10 }
           predicates := []
           timestamp := 0
           wall_clock := 0 }] :=
  port_failure_reports_error { state := .EMITTING } [] 0 0 100 10 rfl

/-- applyOps distributes over list append. -/
theorem Budget.applyOps_append (b : Budget) (l1 l2 : List BudgetOp) :
    b.applyOps (l1 ++ l2) = (b.applyOps l1).applyOps l2 := by
  induction l1 generalizing b with
  | nil => rfl
  | cons op rest ih => exact ih (b.applyOp op)

/-- One budget operation with a nonnegative argument preserves the
budget invariants and never increases the remaining emission time or
the remaining duty budget. -/
theorem budget_step (b : Budget) (op : BudgetOp) (hb : budgetInv b)
    (hop : op.argNonneg) :
    budgetInv (b.applyOp op) ∧
    (b.applyOp op).remaining_emit_ms ≤ b.remaining_emit_ms ∧
    (b.applyOp op).remaining_duty_percent ≤ b.remaining_duty_percent := by
  obtain ⟨rem, duty, cool, last⟩ := b
  obtain ⟨h1, h2, h3, h4⟩ := hb
  cases op with
  | consume_emit d =>
    refine ⟨⟨le_max_left _ _, h2, h3, h4⟩, ?_, le_refl _⟩
    exact max_le h1 (sub_le_self _ hop)
  | consume_duty d =>
    refine ⟨⟨h1, le_max_left _ _, ?_, h4⟩, le_refl _, ?_⟩
    · exact max_le (by norm_num) (le_trans (sub_le_self _ hop) h3)
    · exact max_le h2 (sub_le_self _ hop)
  | cooldown now ct =>
    cases last with
    | none => exact ⟨⟨h1, h2, h3, le_refl 0⟩, le_refl _, le_refl _⟩
    | some t => exact ⟨⟨h1, h2, h3, le_max_left _ _⟩, le_refl _, le_refl _⟩
  | emit_end t => exact ⟨⟨h1, h2, h3, h4⟩, le_refl _, le_refl _⟩

/-- A sequence of budget operations with nonnegative arguments
preserves the invariants and is monotone on the two remaining-budget
fields. -/
theorem budget_ops_inv (b : Budget) (ops : List BudgetOp) (hb : budgetInv b)
    (hops : ∀ op ∈ ops, op.argNonneg) :
    budgetInv (b.applyOps ops) ∧
    (b.applyOps ops).remaining_emit_ms ≤ b.remaining_emit_ms ∧
    (b.applyOps ops).remaining_duty_percent ≤ b.remaining_duty_percent := by
  induction ops generalizing b with
  | nil => exact ⟨hb, le_refl _, le_refl _⟩
  | cons op rest ih =>
    have hstep := budget_step b op hb (hops op (by simp))
    have hrest := ih (b.applyOp op) hstep.1 fun o ho => hops o (by simp [ho])
    exact ⟨hrest.1,
      le_trans hrest.2.1 hstep.2.1,
      le_trans hrest.2.2 hstep.2.2⟩

/-- C5 counterexample: initialize_budget copies
safety.max_continuous_time into the budget without clamping, so a
negative configured value yields a budget whose remaining_emit_ms is
negative, and it is still negative after a budget operation
(update_cooldown) — the invariant remaining_emit_ms ≥ 0 fails. -/
theorem budget_invariant_violated :
    (SessionContext.initialize_budget {}
      { hardware_present := true,
        safety := some { max_continuous_time := some (-1) } }).budget =
      some { remaining_emit_ms := -1000, remaining_duty_percent := 100,
             cooldown_remaining_ms := 0 } ∧
    (Budget.applyOp
      { remaining_emit_ms := -1000, remaining_duty_percent := 100,
        cooldown_remaining_ms := 0 }
      (.cooldown 0 0)).remaining_emit_ms < 0 := by
  constructor
  · norm_num [SessionContext.initialize_budget]
  · simp [Budget.applyOp, Budget.update_cooldown, Budget.consume_emit_time]

/-- C5 as amended: provided the configured
safety.max_continuous_time is nonnegative and every consume operation
receives a nonnegative amount, a budget initialized by
initialize_budget satisfies the invariants initially, after any prefix
of the operation sequence, and at the end, and remaining_emit_ms and
remaining_duty_percent never increase between any prefix point and the
end. -/
theorem budget_invariants_monotone (ctx : SessionContext) (cfg : Config)
    (ops l1 l2 : List BudgetOp) (b0 : Budget)
    (hmax : 0 ≤ (cfg.safety.getD {}).max_continuous_time.getD 3600)
    (hops : ∀ op ∈ ops, op.argNonneg)
    (hsplit : ops = l1 ++ l2)
    (hb : (ctx.initialize_budget cfg).budget = some b0) :
    budgetInv b0 ∧
    budgetInv (b0.applyOps l1) ∧
    budgetInv (b0.applyOps ops) ∧
    (b0.applyOps ops).remaining_emit_ms ≤ (b0.applyOps l1).remaining_emit_ms ∧
    (b0.applyOps ops).remaining_duty_percent ≤
      (b0.applyOps l1).remaining_duty_percent := by
  have hb0 : b0 =
      { remaining_emit_ms := (cfg.safety.getD {}).max_continuous_time.getD 3600 * 1000
        remaining_duty_percent := 100
        cooldown_remaining_ms := 0 } := by
    have := hb
    unfold SessionContext.initialize_budget at this
    simpa using this.symm
  have hinv0 : budgetInv b0 := by
    rw [hb0]
    exact ⟨mul_nonneg hmax (by norm_num), by norm_num, by norm_num, le_refl 0⟩
  have hl1 := budget_ops_inv b0 l1 hinv0 fun o ho => hops o (by simp [hsplit, ho])
  have hl2 := budget_ops_inv (b0.applyOps l1) l2 hl1.1
    fun o ho => hops o (by simp [hsplit, ho])
  rw [hsplit, Budget.applyOps_append]
  exact ⟨hinv0, hl1.1, hl2.1, hl2.2.1, hl2.2.2⟩

/-- Witness for the amended C5: a 1 s configured budget, consuming
100 ms once. -/
theorem budget_invariants_monotone_witness :
    budgetInv { remaining_emit_ms := 1000, remaining_duty_percent := 100,
                cooldown_remaining_ms := 0 } ∧
    budgetInv (Budget.applyOps
      { remaining_emit_ms := 1000, remaining_duty_percent := 100,
        cooldown_remaining_ms := 0 } []) ∧
    budgetInv (Budget.applyOps
      { remaining_emit_ms := 1000, remaining_duty_percent := 100,
        cooldown_remaining_ms := 0 } [.consume_emit 100]) ∧
    (Budget.applyOps
      { remaining_emit_ms := 1000, remaining_duty_percent := 100,
        cooldown_remaining_ms := 0 } [.consume_emit 100]).remaining_emit_ms ≤
      (Budget.applyOps
        { remaining_emit_ms := 1000, remaining_duty_percent := 100,
          cooldown_remaining_ms := 0 } []).remaining_emit_ms ∧
    (Budget.applyOps
      { remaining_emit_ms := 1000, remaining_duty_percent := 100,
        cooldown_remaining_ms := 0 } [.consume_emit 100]).remaining_duty_percent ≤
      (Budget.applyOps
        { remaining_emit_ms := 1000, remaining_duty_percent := 100,
          cooldown_remaining_ms := 0 } []).remaining_duty_percent :=
  budget_invariants_monotone {}
    { hardware_present := true, safety := some { max_continuous_time := some 1 } }
    [.consume_emit 100] [] [.consume_emit 100]
    { remaining_emit_ms := 1000, remaining_duty_percent := 100,
      cooldown_remaining_ms := 0 }
    (by norm_num)
    (by
      rintro op hop
      simp only [List.mem_singleton] at hop
      subst hop
      show (0 : ℚ) ≤ 100
      norm_num)
    rfl
    (by
      unfold SessionContext.initialize_budget
      norm_num)

/-- Entering EMITTING with an absent or non-positive emit duration and
duty consumes nothing from the budget. -/
theorem execute_side_effects_emitting_budget (ctx : SessionContext)
    (f : FSMState) (ed : EventData) (now : ℚ)
    (hd1 : ed.emit_duration_ms.getD 0 ≤ 0) (hd2 : ed.duty_percent.getD 0 ≤ 0) :
    (FSM.execute_side_effects ctx f .EMITTING .EMIT_REQUEST ed now).budget =
      ctx.budget := by
  have h1 : ¬(ed.emit_duration_ms.getD 0 > 0) := not_lt.mpr hd1
  have h2 : ¬(ed.duty_percent.getD 0 > 0) := not_lt.mpr hd2
  unfold FSM.execute_side_effects
  simp only [h1, h2]
  cases hb : ctx.budget <;> simp [hb]

/-- C10 counterexample: a budget object can exist while the defaulted
budget_available guard still fails — with remaining_emit_ms = -1 (as a
negative configured max_continuous_time produces) the guard evaluates
false and the EMIT_REQUEST transition faults, although a budget object
exists and both requirements default to 0. -/
theorem budget_guard_fails_with_budget_present :
    ({ state := .EMIT_READY,
       budget := some { remaining_emit_ms := -1, remaining_duty_percent := 100,
                        cooldown_remaining_ms := 0 },
       simulation_mode := true } : SessionContext).budget.isSome = true ∧
    (evalPredicate
      { state := .EMIT_READY,
        budget := some { remaining_emit_ms := -1, remaining_duty_percent := 100,
                         cooldown_remaining_ms := 0 },
        simulation_mode := true } {} 0 "check_budget_available").1.passed = false ∧
    (FSM.transition
      { state := .EMIT_READY,
        budget := some { remaining_emit_ms := -1, remaining_duty_percent := 100,
                         cooldown_remaining_ms := 0 },
        simulation_mode := true } [] false 0 0 .EMIT_REQUEST {}).ctx.state =
      .FAULT := by
  refine ⟨rfl, ?_, ?_⟩
  · rfl
  · rfl

/-- C10 as amended: on an EMIT_REQUEST whose event_data omits
required_emit_ms and required_duty_percent, FSM.transition evaluates
budget_available with both requirements defaulted to 0, and that guard
passes whenever a budget object with nonnegative remaining_emit_ms and
remaining_duty_percent exists (in particular with zero remaining
budget); and when emit_duration_ms and duty_percent are absent or not
positive, entering EMITTING leaves the budget untouched. -/
theorem emit_request_budget_defaults (ctx : SessionContext) (ed : EventData)
    (now : ℚ) (b : Budget)
    (hed1 : ed.required_emit_ms = none) (hed2 : ed.required_duty_percent = none) :
    (evalPredicate ctx ed now "check_budget_available").1 =
      { passed := (PredicateEvaluator.check_budget_available ctx 0 0).1
        info := .bounds (PredicateEvaluator.check_budget_available ctx 0 0).2 } ∧
    (ctx.budget = some b → 0 ≤ b.remaining_emit_ms →
      0 ≤ b.remaining_duty_percent →
      (PredicateEvaluator.check_budget_available ctx 0 0).1 = true) ∧
    (∀ (trace : List TransitionInfo) (wall : ℚ),
      ctx.state = .EMIT_READY →
      ed.emit_duration_ms.getD 0 ≤ 0 →
      ed.duty_percent.getD 0 ≤ 0 →
      ((evalPredicates ed now ctx
        ["check_budget_available", "check_interlock_safe"]).1.all
          fun p => p.2.passed) = true →
      (FSM.transition ctx trace false now wall .EMIT_REQUEST ed).ctx.budget =
        ctx.budget ∧
      (FSM.transition ctx trace false now wall .EMIT_REQUEST ed).ctx.state =
        .EMITTING) := by
  refine ⟨?_, ?_, ?_⟩
  · simp [evalPredicate, hed1, hed2]
  · intro hb h1 h2
    simp [PredicateEvaluator.check_budget_available, hb, h1, h2]
  · intro trace wall hst hd1 hd2 hall
    have hk : lookupTransition (ctx.state, .EMIT_REQUEST) =
        some (.EMITTING, ["check_budget_available", "check_interlock_safe"]) := by
      rw [hst]; rfl
    have hctx1 : (evalPredicates ed now ctx
        ["check_budget_available", "check_interlock_safe"]).2 = ctx := by
      simp [evalPredicates, evalPredicate]
    simp only [FSM.transition, hk, hall, hctx1]
    rw [if_neg (by simp)]
    constructor
    · simp only [FSM.execute_transition]
      rw [execute_side_effects_emitting_budget _ _ _ _ hd1 hd2]
    · simp only [FSM.execute_transition]
      rw [execute_side_effects_state]

/-- Witness for the amended C10: an EMIT_READY context holding a full
budget, given an EMIT_REQUEST with empty event_data. -/
theorem emit_request_budget_defaults_witness :
    (evalPredicate
      { state := .EMIT_READY,
        budget := some { remaining_emit_ms := 1000, remaining_duty_percent := 100,
                         cooldown_remaining_ms := 0 },
        simulation_mode := true } {} 0 "check_budget_available").1 =
      { passed := (PredicateEvaluator.check_budget_available
          { state := .EMIT_READY,
            budget := some { remaining_emit_ms := 1000,
                             remaining_duty_percent := 100,
                             cooldown_remaining_ms := 0 },
            simulation_mode := true } 0 0).1
        info := .bounds (PredicateEvaluator.check_budget_available
          { state := .EMIT_READY,
            budget := some { remaining_emit_ms := 1000,
                             remaining_duty_percent := 100,
                             cooldown_remaining_ms := 0 },
            simulation_mode := true } 0 0).2 } ∧
    (PredicateEvaluator.check_budget_available
      { state := .EMIT_READY,
        budget := some { remaining_emit_ms := 1000, remaining_duty_percent := 100,
                         cooldown_remaining_ms := 0 },
        simulation_mode := true } 0 0).1 = true ∧
    (FSM.transition
      { state := .EMIT_READY,
        budget := some { remaining_emit_ms := 1000, remaining_duty_percent := 100,
                         cooldown_remaining_ms := 0 },
        simulation_mode := true } [] false 0 0 .EMIT_REQUEST {}).ctx.budget =
      ({ state := .EMIT_READY,
         budget := some { remaining_emit_ms := 1000, remaining_duty_percent := 100,
                          cooldown_remaining_ms := 0 },
         simulation_mode := true } : SessionContext).budget ∧
    (FSM.transition
      { state := .EMIT_READY,
        budget := some { remaining_emit_ms := 1000, remaining_duty_percent := 100,
                         cooldown_remaining_ms := 0 },
        simulation_mode := true } [] false 0 0 .EMIT_REQUEST {}).ctx.state =
      .EMITTING := by
  obtain ⟨h1, h2, h3⟩ := emit_request_budget_defaults
    { state := .EMIT_READY,
      budget := some { remaining_emit_ms := 1000, remaining_duty_percent := 100,
                       cooldown_remaining_ms := 0 },
      simulation_mode := true } {} 0
    { remaining_emit_ms := 1000, remaining_duty_percent := 100,
      cooldown_remaining_ms := 0 } rfl rfl
  obtain ⟨h4, h5⟩ := h3 [] 0 rfl (le_refl 0) (le_refl 0) rfl
  exact ⟨h1, h2 rfl (by norm_num) (by norm_num), h4, h5⟩

/-- C8 counterexample: a pattern request of one 100 ms pulse (pulse
duration 0.1 s) against an envelope whose PulseWidthBounds are
[5 ms, 5 ms] is accepted by the semantic validation, although its pulse
width lies outside the bounds: validate_request never compares the
request pulse width with the bounds (the branch is a pass statement). -/
theorem pulse_width_bounds_not_checked :
    ({ power_mw_max := 1, duty_cycle_max := 100, t_start := 0, t_end := 1,
       pulse_width_bounds := some { min_ms := 5, max_ms := 5 } } :
        EmitEnvelope).pulse_width_bounds = some { min_ms := 5, max_ms := 5 } ∧
    (1 / 10 : ℚ) * 1000 = 100 ∧
    ¬((5 : ℚ) ≤ 100 ∧ (100 : ℚ) ≤ 5) ∧
    patternTotalDurationMs 1 0 (1 / 10) (1 / 10) = 100 ∧
    patternDutyPercent 1 0 (1 / 10) (1 / 10) = 100 ∧
    EmitEnvelope.validate_request
      { power_mw_max := 1, duty_cycle_max := 100, t_start := 0, t_end := 1,
        pulse_width_bounds := some { min_ms := 5, max_ms := 5 } }
      1 (patternDutyPercent 1 0 (1 / 10) (1 / 10))
      (patternTotalDurationMs 1 0 (1 / 10) (1 / 10)) = (true, "") := by
  refine ⟨rfl, by norm_num, by norm_num, ?_, ?_, ?_⟩
  · norm_num [patternTotalDurationMs]
  · norm_num [patternDutyPercent]
  · norm_num [EmitEnvelope.validate_request, EmitEnvelope.duration_ms,
      patternDutyPercent, patternTotalDurationMs]

/-- C8 as amended: semantic validation of a request checks power, duty
cycle and total duration only; the result is accepted exactly when all
three fit the envelope, and it is entirely independent of the
PulseWidthBounds carried by the envelope (which are never compared with
the request). -/
theorem validate_request_ignores_pulse_bounds (e : EmitEnvelope) (p d dur : ℚ) :
    ((e.validate_request p d dur).1 = true ↔
      p ≤ e.power_mw_max ∧ d ≤ e.duty_cycle_max ∧ dur ≤ e.duration_ms) ∧
    (∀ pwb : Option PulseWidthBounds,
      EmitEnvelope.validate_request { e with pulse_width_bounds := pwb } p d dur =
        e.validate_request p d dur) := by
  constructor
  · unfold EmitEnvelope.validate_request
    split_ifs with h1 h2 h3
    · simp [not_le.mpr h1]
    · simp [not_le.mpr h2]
    · simp [not_le.mpr h3]
    · simp [not_lt.mp h1, not_lt.mp h2, not_lt.mp h3]
  · intro pwb
    rfl

/-- A record as written never carries a hash key among its pre-hash
fields, so stripping the hash key from the full record recovers exactly
the fields that were hashed. -/
theorem write_record_hash_free (hashHex : String → String) (w : TraceWriter)
    (p : WritePayload) :
    fieldsWithoutHash (TraceWriter.write_record hashHex w p).1.full =
      (TraceWriter.write_record hashHex w p).1.fields := by
  unfold TraceWriter.write_record TraceRecord.full fieldsWithoutHash
  dsimp only
  rw [List.filter_append]
  cases p.state_from <;> cases p.state_to <;> cases p.predicates_json <;>
    cases p.event_data_json <;> cases p.config_hash <;> cases p.cal_hash <;>
    simp [optField]

/-- The write_record invariant, generalized over the starting writer
state: every produced record hashes the canonical serialization of its
own fields without the hash key, carries its prev_hash and seq among
its serialized fields, the chain starts at the writer's pending
prev_hash (64 zero digits for a fresh writer) and links each record to
the previous one, and the sequence numbers continue the writer's
counter densely. -/
theorem writeAll_spec (hashHex : String → String) (ps : List WritePayload) :
    ∀ w : TraceWriter,
      List.Forall
        (fun r =>
          r.hash = hashHex (serializeJson (.jobj (fieldsWithoutHash r.full))) ∧
          r.full.lookup "prev_hash" = some (.jstr r.prev_hash) ∧
          r.full.lookup "seq" = some (.jnum (toString r.seq)))
        (TraceWriter.writeAll hashHex w ps) ∧
      chainedFrom (w.prev_hash.getD zeros64) (TraceWriter.writeAll hashHex w ps) ∧
      (TraceWriter.writeAll hashHex w ps).map (fun r => r.seq) =
        List.range' (w.sequence + 1) ps.length := by
  induction ps with
  | nil =>
    intro w
    exact ⟨trivial, trivial, rfl⟩
  | cons p rest ih =>
    intro w
    have hrec := ih (TraceWriter.write_record hashHex w p).2
    refine ⟨?_, ?_, ?_⟩
    · simp only [TraceWriter.writeAll, List.forall_cons]
      refine ⟨⟨?_, rfl, rfl⟩, hrec.1⟩
      rw [write_record_hash_free]
      rfl
    · exact ⟨rfl, hrec.2.1⟩
    · simp only [TraceWriter.writeAll, List.map, List.length_cons]
      rw [hrec.2.2, List.range'_succ]
      rfl

/-- C2: for every sequence of records written by one TraceWriter
started on a fresh trace file, each record's hash is the hash primitive
(SHA-256 hexdigest in the source) applied to the canonical JSON of that
record with the hash field absent; each record's serialized prev_hash
equals the hash of the previously written record, with 64 zero hex
digits for the first; and the seq values are exactly 1, 2, ..., N in
order. -/
theorem trace_chain_properties (hashHex : String → String) (sid : String)
    (ps : List WritePayload) :
    List.Forall
      (fun r =>
        r.hash = hashHex (serializeJson (.jobj (fieldsWithoutHash r.full))) ∧
        r.full.lookup "prev_hash" = some (.jstr r.prev_hash) ∧
        r.full.lookup "seq" = some (.jnum (toString r.seq)))
      (TraceWriter.writeAll hashHex { session_id := sid } ps) ∧
    chainedFrom zeros64 (TraceWriter.writeAll hashHex { session_id := sid } ps) ∧
    (TraceWriter.writeAll hashHex { session_id := sid } ps).map (fun r => r.seq) =
      List.range' 1 ps.length :=
  writeAll_spec hashHex ps { session_id := sid }
